import Mathlib

/-!
Verification of the repository/query layer of `sample-mcp`.

The Go source under verification is a generic CRUD repository
(`db/repository/repository.go`, `BaseRepository[T]` backed by gorm and
PostgreSQL), three specialized repositories (`AccountRepository`,
`CategoryRepository`, `TransactionRepository`) and the `QueryOps` facade
(`ops/query.go`).

Shallow embedding conventions:
* A database table is a list of rows plus the state of its id sequence.
* `time.Time` values are modelled as natural numbers (`0` is Go's zero
  time); `transaction_date` is a day ordinal.
* `Amount` (`numeric(10,2)` in the schema) is modelled exactly as an
  integer number of cents; PostgreSQL `numeric` arithmetic is exact.
* Go's `(value, error)` pairs are modelled as `Except StoreErr value`;
  a `nil` error is `Except.ok`, and the `nil`/zero data value that
  accompanies a non-nil Go error is implicit in `Except.error`.
* gorm behaviour relevant to the claims is embedded explicitly:
  `First` returns `gorm.ErrRecordNotFound` on zero rows; `Find` returns
  an empty slice and a nil error on zero rows; `Save` updates all fields
  and falls back to an insert when the update affects zero rows;
  `Delete` on an entity whose primary key is zero is rejected with
  `gorm.ErrMissingWhereClause`; a negative `Limit` drops the LIMIT
  clause.  Connectivity failures of the store are outside the model.
-/

namespace SampleMcp

/-- Errors surfaced by the store/gorm layer (error taxonomy of the spec:
NotFound, ConstraintViolation; plus gorm's missing-WHERE guard and the
PostgreSQL rejection of a query that references an undefined table alias). -/
inductive StoreErr where
  | notFound
  | constraintViolation
  | missingWhereClause
  | undefinedTable
deriving Repr, DecidableEq

/-- `entity.Account` from `db/entity` (gorm model: `account_id` primary key,
`name` and `account_type` not null, `created_at`/`updated_at` timestamps). -/
structure Account where
  accountID : Nat
  name : String
  accountType : String
  createdAt : Nat
  updatedAt : Nat
deriving Repr, DecidableEq

/-- `entity.Category` from `db/entity` (`category_id` primary key, `name`
unique and not null, `category_type` not null, timestamps). -/
structure Category where
  categoryID : Nat
  name : String
  categoryType : String
  createdAt : Nat
  updatedAt : Nat
deriving Repr, DecidableEq

/-- `entity.Transaction` from `db/entity`.  `Description` is a nullable
column (`*string` in Go).  The eagerly-preloaded `Account`/`Category`
pointers are a read-time convenience carrying no further state of their
own and are not modelled. -/
structure Transaction where
  transactionID : Nat
  accountID : Nat
  categoryID : Nat
  amount : Int
  transactionDate : Nat
  description : Option String
  createdAt : Nat
  updatedAt : Nat
deriving Repr, DecidableEq

/-- `plain.TransactionSummary` from `db/repository/plain`: one row of the
`GroupByCategory` aggregation. -/
structure TransactionSummary where
  categoryName : String
  totalAmount : Int
  count : Int
deriving Repr, DecidableEq

/-- One relational table: its rows plus the next value of the id
sequence backing the primary-key column. -/
structure Table (T : Type) where
  rows : List T
  nextId : Nat
deriving Repr, DecidableEq

/-- Field access used by the generic `BaseRepository[T]`: the primary key
and the two gorm-managed timestamp columns of the entity type. -/
structure EntityMeta (T : Type) where
  getId : T → Nat
  setId : Nat → T → T
  getCreatedAt : T → Nat
  setCreatedAt : Nat → T → T
  getUpdatedAt : T → Nat
  setUpdatedAt : Nat → T → T

def accountMeta : EntityMeta Account where
  getId e := e.accountID
  setId n e := { e with accountID := n }
  getCreatedAt e := e.createdAt
  setCreatedAt t e := { e with createdAt := t }
  getUpdatedAt e := e.updatedAt
  setUpdatedAt t e := { e with updatedAt := t }

def categoryMeta : EntityMeta Category where
  getId e := e.categoryID
  setId n e := { e with categoryID := n }
  getCreatedAt e := e.createdAt
  setCreatedAt t e := { e with createdAt := t }
  getUpdatedAt e := e.updatedAt
  setUpdatedAt t e := { e with updatedAt := t }

def transactionMeta : EntityMeta Transaction where
  getId e := e.transactionID
  setId n e := { e with transactionID := n }
  getCreatedAt e := e.createdAt
  setCreatedAt t e := { e with createdAt := t }
  getUpdatedAt e := e.updatedAt
  setUpdatedAt t e := { e with updatedAt := t }

/-- gorm's automatic create-time stamping: `CreatedAt`/`UpdatedAt` are set
to the current time on insert when they are zero, and kept otherwise. -/
def autoTimestamps {T : Type} (m : EntityMeta T) (now : Nat) (e : T) : T :=
  let e1 := if m.getCreatedAt e = 0 then m.setCreatedAt now e else e
  if m.getUpdatedAt e1 = 0 then m.setUpdatedAt now e1 else e1

/-- `BaseRepository.Create` (`db/repository/repository.go`):
`r.DB.WithContext(ctx).Create(entity).Error`.  A zero primary key is
replaced by the next sequence value; timestamps are stamped; the insert
fails with a constraint violation when the row breaks a table constraint
(`cons` is the conjunction of the table's schema constraints). -/
def BaseRepository.Create {T : Type} (m : EntityMeta T) (cons : List T → T → Bool)
    (now : Nat) (tbl : Table T) (e : T) : Except StoreErr (T × Table T) :=
  let withId := if m.getId e = 0 then m.setId tbl.nextId e else e
  let row := autoTimestamps m now withId
  if cons tbl.rows row then
    Except.ok (row, ⟨tbl.rows ++ [row],
      if m.getId e = 0 then tbl.nextId + 1 else tbl.nextId⟩)
  else
    Except.error StoreErr.constraintViolation

/-- `BaseRepository.FindByID`: `First(&entity, id)` — the row whose primary
key equals `id`, or `gorm.ErrRecordNotFound` when no row matches.  (`First`
orders by primary key; primary keys are unique, so the first stored match
is the row.) -/
def BaseRepository.FindByID {T : Type} (m : EntityMeta T) (tbl : Table T)
    (id : Nat) : Except StoreErr T :=
  match tbl.rows.find? (fun r => m.getId r == id) with
  | some e => Except.ok e
  | none => Except.error StoreErr.notFound

/-- `BaseRepository.FindAll`: `Find(&entities)` — every row, store order,
an empty table giving an empty slice and a nil error. -/
def BaseRepository.FindAll {T : Type} (tbl : Table T) : Except StoreErr (List T) :=
  Except.ok tbl.rows

/-- `BaseRepository.Update`: `r.DB.WithContext(ctx).Save(entity).Error`.
gorm's `Save` creates when the primary key is zero; otherwise it runs an
UPDATE of every column (with `UpdatedAt` auto-stamped to the current
time), and when that update affects zero rows it falls back to an
insert of the value. -/
def BaseRepository.Update {T : Type} (m : EntityMeta T) (cons : List T → T → Bool)
    (now : Nat) (tbl : Table T) (e : T) : Except StoreErr (T × Table T) :=
  if m.getId e = 0 then
    BaseRepository.Create m cons now tbl e
  else
    let row := m.setUpdatedAt now e
    if tbl.rows.any (fun r => m.getId r == m.getId e) then
      Except.ok (row,
        ⟨tbl.rows.map (fun r => if m.getId r == m.getId e then row else r),
         tbl.nextId⟩)
    else
      BaseRepository.Create m cons now tbl row

/-- `BaseRepository.Delete`: `Delete(entity)` — deletes the row whose
primary key equals the entity's primary key.  gorm refuses a delete whose
statement carries no WHERE condition, which happens exactly when the
entity's primary key is zero (`gorm.ErrMissingWhereClause`); otherwise
zero affected rows is still a success. -/
def BaseRepository.Delete {T : Type} (m : EntityMeta T) (tbl : Table T)
    (e : T) : Except StoreErr (Table T) :=
  if m.getId e = 0 then
    Except.error StoreErr.missingWhereClause
  else
    Except.ok ⟨tbl.rows.filter (fun r => !(m.getId r == m.getId e)), tbl.nextId⟩

/-- `BaseRepository.DeleteByID`: `Delete(&entity, id)` — the inline
condition always yields a `WHERE pk = id` clause, so the delete executes
for every id; zero affected rows is a success. -/
def BaseRepository.DeleteByID {T : Type} (m : EntityMeta T) (tbl : Table T)
    (id : Nat) : Except StoreErr (Table T) :=
  Except.ok ⟨tbl.rows.filter (fun r => !(m.getId r == id)), tbl.nextId⟩

/-- All suffixes of a character list, longest first, ending with `[]`. -/
def suffixes : List Char → List (List Char)
  | [] => [[]]
  | l@(_ :: t) => l :: suffixes t

/-- PostgreSQL `ILIKE` pattern matching over characters: `%` matches any
sequence, `_` any single character, a backslash escapes the following
pattern character, any other character matches itself case-insensitively. -/
def likeMatch : List Char → List Char → Bool
  | [], s => s.isEmpty
  | c :: p, s =>
    if c = '%' then
      (suffixes s).any (fun t => likeMatch p t)
    else if c = '\\' then
      match p, s with
      | pc :: p2, d :: t => (pc.toLower == d.toLower) && likeMatch p2 t
      | _, _ => false
    else if c = '_' then
      match s with
      | [] => false
      | _ :: t => likeMatch p t
    else
      match s with
      | [] => false
      | d :: t => (c.toLower == d.toLower) && likeMatch p t

/-- `column ILIKE '%' || keyword || '%'` — the pattern every
`...Like` repository method builds from its keyword. -/
def ilike (column keyword : String) : Bool :=
  likeMatch ('%' :: keyword.data ++ ['%']) column.data

/-- The full database: the three migrated tables. -/
structure Db where
  accounts : Table Account
  categories : Table Category
  transactions : Table Transaction
deriving Repr, DecidableEq

/-- `repository.AccountRepository` — wraps the generic repository for
`Account`; holds the store handle. -/
structure AccountRepository where
  db : Db
deriving Repr, DecidableEq

/-- `repository.CategoryRepository`. -/
structure CategoryRepository where
  db : Db
deriving Repr, DecidableEq

/-- `repository.TransactionRepository`. -/
structure TransactionRepository where
  db : Db
deriving Repr, DecidableEq

/-- `NewAccountRepository(db)`. -/
def NewAccountRepository (db : Db) : AccountRepository := ⟨db⟩

/-- `NewCategoryRepository(db)`. -/
def NewCategoryRepository (db : Db) : CategoryRepository := ⟨db⟩

/-- `NewTransactionRepository(db)`. -/
def NewTransactionRepository (db : Db) : TransactionRepository := ⟨db⟩

/-- `AccountRepository.FindByID` (inherited from the base repository). -/
def AccountRepository.FindByID (r : AccountRepository) (id : Nat) :
    Except StoreErr Account :=
  BaseRepository.FindByID accountMeta r.db.accounts id

/-- `AccountRepository.FindAll` (inherited from the base repository). -/
def AccountRepository.FindAll (r : AccountRepository) :
    Except StoreErr (List Account) :=
  BaseRepository.FindAll r.db.accounts

/-- `AccountRepository.FindByName` (`db/repository/account.go`):
`Where("name = ?", name).First(&account)` — `gorm.ErrRecordNotFound`
when no row matches. -/
def AccountRepository.FindByName (r : AccountRepository) (name : String) :
    Except StoreErr Account :=
  match r.db.accounts.rows.find? (fun a => a.name == name) with
  | some a => Except.ok a
  | none => Except.error StoreErr.notFound

/-- `AccountRepository.FindByNameLike`:
`Where("name ILIKE ?", "%"+keyword+"%").Find(&accounts)`. -/
def AccountRepository.FindByNameLike (r : AccountRepository) (keyword : String) :
    Except StoreErr (List Account) :=
  Except.ok (r.db.accounts.rows.filter (fun a => ilike a.name keyword))

/-- `CategoryRepository.FindByID` (inherited from the base repository). -/
def CategoryRepository.FindByID (r : CategoryRepository) (id : Nat) :
    Except StoreErr Category :=
  BaseRepository.FindByID categoryMeta r.db.categories id

/-- `CategoryRepository.FindAll` (inherited from the base repository). -/
def CategoryRepository.FindAll (r : CategoryRepository) :
    Except StoreErr (List Category) :=
  BaseRepository.FindAll r.db.categories

/-- `CategoryRepository.FindByType` (`db/repository/category.go`):
`Where("category_type = ?", categoryType).Find(&categories)`. -/
def CategoryRepository.FindByType (r : CategoryRepository) (categoryType : String) :
    Except StoreErr (List Category) :=
  Except.ok (r.db.categories.rows.filter (fun c => c.categoryType == categoryType))

/-- `CategoryRepository.FindByNameLike`:
`Where("name ILIKE ?", "%"+keyword+"%").Find(&categories)`. -/
def CategoryRepository.FindByNameLike (r : CategoryRepository) (keyword : String) :
    Except StoreErr (List Category) :=
  Except.ok (r.db.categories.rows.filter (fun c => ilike c.name keyword))

/-- `TransactionRepository.FindByID` (inherited from the base repository). -/
def TransactionRepository.FindByID (r : TransactionRepository) (id : Nat) :
    Except StoreErr Transaction :=
  BaseRepository.FindByID transactionMeta r.db.transactions id

/-- `TransactionRepository.FindAll` (inherited from the base repository). -/
def TransactionRepository.FindAll (r : TransactionRepository) :
    Except StoreErr (List Transaction) :=
  BaseRepository.FindAll r.db.transactions

/-- `TransactionRepository.FindByAccountID` (`db/repository/transaction.go`):
`Where("account_id = ?", accountID).Find(&transactions)` with `Account`
and `Category` preloaded. -/
def TransactionRepository.FindByAccountID (r : TransactionRepository)
    (accountID : Nat) : Except StoreErr (List Transaction) :=
  Except.ok (r.db.transactions.rows.filter (fun t => t.accountID == accountID))

/-- `TransactionRepository.FindByDateRange`:
`Where("transaction_date BETWEEN ? AND ?", start, end)` — SQL `BETWEEN`
is inclusive on both bounds. -/
def TransactionRepository.FindByDateRange (r : TransactionRepository)
    (startDate endDate : Nat) : Except StoreErr (List Transaction) :=
  Except.ok (r.db.transactions.rows.filter
    (fun t => startDate ≤ t.transactionDate && t.transactionDate ≤ endDate))

/-- `TransactionRepository.FindByDescriptionLike`:
`Where("description IS NOT NULL AND description ILIKE ?", "%"+keyword+"%")`.
A NULL description fails the `IS NOT NULL` conjunct. -/
def TransactionRepository.FindByDescriptionLike (r : TransactionRepository)
    (keyword : String) : Except StoreErr (List Transaction) :=
  Except.ok (r.db.transactions.rows.filter (fun t =>
    match t.description with
    | some d => ilike d keyword
    | none => false))

/-- Descending `transaction_date` order (`Order("transaction_date DESC")`). -/
def dateDesc (a b : Transaction) : Prop :=
  b.transactionDate ≤ a.transactionDate

instance : DecidableRel dateDesc := fun _ _ => Nat.decLe _ _

instance : IsTotal Transaction dateDesc :=
  ⟨fun a b => Nat.le_total b.transactionDate a.transactionDate⟩

instance : IsTrans Transaction dateDesc :=
  ⟨fun _ _ _ h1 h2 => Nat.le_trans h2 h1⟩

/-- The store's realisation of `ORDER BY transaction_date DESC` (ties in
`transaction_date` are returned in an unspecified order; any sort by the
date key realises the clause). -/
def sortByDateDesc (l : List Transaction) : List Transaction :=
  l.insertionSort dateDesc

/-- `TransactionRepository.FindByAccountAndDateRange`:
both filters plus `Order("transaction_date DESC")`. -/
def TransactionRepository.FindByAccountAndDateRange (r : TransactionRepository)
    (accountID : Nat) (startDate endDate : Nat) : Except StoreErr (List Transaction) :=
  Except.ok (sortByDateDesc (r.db.transactions.rows.filter
    (fun t => t.accountID == accountID &&
      (startDate ≤ t.transactionDate && t.transactionDate ≤ endDate))))

/-- The SQL aggregate `SUM` over a column: NULL (`none`) over zero rows,
otherwise the running total. -/
def sqlSum (l : List Int) : Option Int :=
  l.foldl (fun acc x => some (acc.getD 0 + x)) none

/-- `TransactionRepository.SumByAccountID`:
`Select("COALESCE(SUM(amount), 0)")` over `Where("account_id = ?")`,
scanned into the result — `COALESCE` turns the NULL of an empty group
into 0. -/
def TransactionRepository.SumByAccountID (r : TransactionRepository)
    (accountID : Nat) : Except StoreErr Int :=
  Except.ok ((sqlSum ((r.db.transactions.rows.filter
    (fun t => t.accountID == accountID)).map (fun t => t.amount))).getD 0)

/-- `TransactionRepository.CountByAccountID`: `Select("COUNT(*)")` over
`Where("account_id = ?")`. -/
def TransactionRepository.CountByAccountID (r : TransactionRepository)
    (accountID : Nat) : Except StoreErr Int :=
  Except.ok ((r.db.transactions.rows.filter
    (fun t => t.accountID == accountID)).length)

/-- `TransactionRepository.FindLatestForAccount`:
`Where("account_id = ?").Order("transaction_date DESC").Limit(limit)`.
gorm emits a `LIMIT` clause only for a non-negative limit argument; a
negative limit cancels the clause, returning every matching row. -/
def TransactionRepository.FindLatestForAccount (r : TransactionRepository)
    (accountID : Nat) (limit : Int) : Except StoreErr (List Transaction) :=
  let sorted := sortByDateDesc (r.db.transactions.rows.filter
    (fun t => t.accountID == accountID))
  Except.ok (if 0 ≤ limit then sorted.take limit.toNat else sorted)

/-- The `Table` argument of the `GroupByCategory` query builder, verbatim
from `db/repository/transaction.go`. -/
def groupByCategoryTable : String := "transactions"

/-- The `Select` argument of `GroupByCategory`, verbatim from the source. -/
def groupByCategorySelect : String :=
  "c.name as category_name, SUM(t.amount) as total_amount, COUNT(t.transaction_id) as count"

/-- The `Joins` argument of `GroupByCategory`, verbatim from the source. -/
def groupByCategoryJoins : String :=
  "JOIN categories c ON t.category_id = c.category_id"

/-- The `Where` argument of `GroupByCategory`, verbatim from the source. -/
def groupByCategoryWhere : String := "t.account_id = ?"

/-- The `Group` argument of `GroupByCategory`, verbatim from the source. -/
def groupByCategoryGroup : String := "c.name"

/-- Splits a character list into maximal space-free words. -/
def wordsAux : List Char → List Char → List String
  | [], acc => if acc.isEmpty then [] else [String.mk acc.reverse]
  | c :: rest, acc =>
    if c = ' ' then
      if acc.isEmpty then
        wordsAux rest []
      else
        String.mk acc.reverse :: wordsAux rest []
    else
      wordsAux rest (c :: acc)

/-- Split an SQL fragment into its space-separated words. -/
def sqlWords (s : String) : List String :=
  wordsAux s.data []

/-- The table aliases a `JOIN <table> <alias> ON ...` fragment introduces
into the FROM list. -/
def joinAliases (j : String) : List String :=
  match sqlWords j with
  | "JOIN" :: _ :: a :: "ON" :: _ => [a]
  | _ => []

/-- The relation names the FROM clause of the `GroupByCategory` query
defines: the unaliased table of `Table("transactions")` plus the aliases
of the `Joins` fragment. -/
def groupByCategoryFromNames : List String :=
  groupByCategoryTable :: joinAliases groupByCategoryJoins

/-- Characters that may appear in an SQL identifier. -/
def isIdentChar (c : Char) : Bool := c.isAlphanum || c = '_'

/-- Accumulates the identifier immediately preceding each dot. -/
def qualifiersAux : List Char → List Char → List String
  | [], _ => []
  | '.' :: rest, acc =>
    if acc.isEmpty then
      qualifiersAux rest []
    else
      String.mk acc.reverse :: qualifiersAux rest []
  | c :: rest, acc =>
    if isIdentChar c then
      qualifiersAux rest (c :: acc)
    else
      qualifiersAux rest []

/-- The table qualifiers (`alias` in `alias.column`) an SQL fragment
references.  PostgreSQL rejects the whole query when one of them is not a
relation name defined by the FROM clause. -/
def sqlQualifiers (s : String) : List String :=
  qualifiersAux s.data []

/-- `TransactionRepository.GroupByCategory`: the built SQL references the
alias `t` (see `groupByCategorySelect`/`groupByCategoryWhere`/
`groupByCategoryJoins`) which the FROM clause
(`groupByCategoryFromNames`) never defines, so PostgreSQL rejects every
execution of the statement with a missing-FROM-clause-entry error; the
method therefore returns that store error unconditionally. -/
def TransactionRepository.GroupByCategory (_ : TransactionRepository)
    (_ : Nat) : Except StoreErr (List TransactionSummary) :=
  Except.error StoreErr.undefinedTable

/-- `ops.QueryOps` (`ops/query.go`): the facade over the three
specialized repositories. -/
structure QueryOps where
  accountRepo : AccountRepository
  categoryRepo : CategoryRepository
  transactionRepo : TransactionRepository
deriving Repr, DecidableEq

/-- `WithGormDB(db)` applied by `NewQueryOps`: constructs the three
repositories from one store handle. -/
def WithGormDB (db : Db) : QueryOps :=
  ⟨NewAccountRepository db, NewCategoryRepository db, NewTransactionRepository db⟩

/-- `QueryOps.GetAccountByID`. -/
def QueryOps.GetAccountByID (q : QueryOps) (accountID : Nat) :
    Except StoreErr Account :=
  q.accountRepo.FindByID accountID

/-- `QueryOps.GetAccountByName`. -/
def QueryOps.GetAccountByName (q : QueryOps) (name : String) :
    Except StoreErr Account :=
  q.accountRepo.FindByName name

/-- `QueryOps.SearchAccounts`. -/
def QueryOps.SearchAccounts (q : QueryOps) (keyword : String) :
    Except StoreErr (List Account) :=
  q.accountRepo.FindByNameLike keyword

/-- `QueryOps.GetAllAccounts`. -/
def QueryOps.GetAllAccounts (q : QueryOps) : Except StoreErr (List Account) :=
  q.accountRepo.FindAll

/-- `QueryOps.GetCategoryByID`. -/
def QueryOps.GetCategoryByID (q : QueryOps) (categoryID : Nat) :
    Except StoreErr Category :=
  q.categoryRepo.FindByID categoryID

/-- `QueryOps.GetCategoriesByType`. -/
def QueryOps.GetCategoriesByType (q : QueryOps) (categoryType : String) :
    Except StoreErr (List Category) :=
  q.categoryRepo.FindByType categoryType

/-- `QueryOps.SearchCategories`. -/
def QueryOps.SearchCategories (q : QueryOps) (keyword : String) :
    Except StoreErr (List Category) :=
  q.categoryRepo.FindByNameLike keyword

/-- `QueryOps.GetAllCategories`. -/
def QueryOps.GetAllCategories (q : QueryOps) : Except StoreErr (List Category) :=
  q.categoryRepo.FindAll

/-- `QueryOps.GetTransactionByID`. -/
def QueryOps.GetTransactionByID (q : QueryOps) (transactionID : Nat) :
    Except StoreErr Transaction :=
  q.transactionRepo.FindByID transactionID

/-- `QueryOps.GetTransactionsByAccountID`. -/
def QueryOps.GetTransactionsByAccountID (q : QueryOps) (accountID : Nat) :
    Except StoreErr (List Transaction) :=
  q.transactionRepo.FindByAccountID accountID

/-- `QueryOps.GetTransactionsByDateRange`. -/
def QueryOps.GetTransactionsByDateRange (q : QueryOps)
    (startDate endDate : Nat) : Except StoreErr (List Transaction) :=
  q.transactionRepo.FindByDateRange startDate endDate

/-- `QueryOps.GetTransactionsByAccountAndDateRange`. -/
def QueryOps.GetTransactionsByAccountAndDateRange (q : QueryOps)
    (accountID : Nat) (startDate endDate : Nat) :
    Except StoreErr (List Transaction) :=
  q.transactionRepo.FindByAccountAndDateRange accountID startDate endDate

/-- `QueryOps.SearchTransactionsByDescription`. -/
def QueryOps.SearchTransactionsByDescription (q : QueryOps) (keyword : String) :
    Except StoreErr (List Transaction) :=
  q.transactionRepo.FindByDescriptionLike keyword

/-- `QueryOps.GetAccountBalance`. -/
def QueryOps.GetAccountBalance (q : QueryOps) (accountID : Nat) :
    Except StoreErr Int :=
  q.transactionRepo.SumByAccountID accountID

/-- `QueryOps.GetTransactionCount`. -/
def QueryOps.GetTransactionCount (q : QueryOps) (accountID : Nat) :
    Except StoreErr Int :=
  q.transactionRepo.CountByAccountID accountID

/-- `QueryOps.GetLatestTransactions`. -/
def QueryOps.GetLatestTransactions (q : QueryOps) (accountID : Nat)
    (limit : Int) : Except StoreErr (List Transaction) :=
  q.transactionRepo.FindLatestForAccount accountID limit

/-- `QueryOps.GetTransactionSummaryByCategory`. -/
def QueryOps.GetTransactionSummaryByCategory (q : QueryOps) (accountID : Nat) :
    Except StoreErr (List TransactionSummary) :=
  q.transactionRepo.GroupByCategory accountID

/-- `QueryOps.GetAllTransactions`. -/
def QueryOps.GetAllTransactions (q : QueryOps) :
    Except StoreErr (List Transaction) :=
  q.transactionRepo.FindAll

/-- Case-insensitive "starts with": the needle is a prefix of the hay,
comparing characters after `Char.toLower`. -/
def prefixCI : List Char → List Char → Bool
  | [], _ => true
  | _ :: _, [] => false
  | c :: p, d :: t => (c.toLower == d.toLower) && prefixCI p t

/-- Case-insensitive containment, the spec's "description contains the
keyword (case-insensitive)": some suffix of the hay starts with the
needle. -/
def containsCI (needle hay : List Char) : Bool :=
  (suffixes hay).any (fun t => prefixCI needle t)

/-- A keyword character that PostgreSQL `LIKE`/`ILIKE` treats literally:
not the `%` or `_` wildcard and not the escape character. -/
def literalChar (c : Char) : Bool := !(c = '%' || c = '_' || c = '\\')

/-- Erases the store-generated fields (primary key and the two
timestamps), leaving the caller-supplied payload of the entity. -/
def eraseGenerated {T : Type} (m : EntityMeta T) (e : T) : T :=
  m.setId 0 (m.setCreatedAt 0 (m.setUpdatedAt 0 e))

/-- The `EntityMeta` accessors describe genuine record fields: getters
read back what setters wrote, distinct fields do not interfere, and
setting a generated field is invisible after `eraseGenerated`.  All three
concrete metas satisfy these laws definitionally. -/
structure LawfulMeta {T : Type} (m : EntityMeta T) : Prop where
  getId_setId : ∀ n e, m.getId (m.setId n e) = n
  getId_setCreatedAt : ∀ t e, m.getId (m.setCreatedAt t e) = m.getId e
  getId_setUpdatedAt : ∀ t e, m.getId (m.setUpdatedAt t e) = m.getId e
  getCreatedAt_setCreatedAt : ∀ t e, m.getCreatedAt (m.setCreatedAt t e) = t
  getCreatedAt_setUpdatedAt : ∀ t e, m.getCreatedAt (m.setUpdatedAt t e) = m.getCreatedAt e
  getUpdatedAt_setUpdatedAt : ∀ t e, m.getUpdatedAt (m.setUpdatedAt t e) = t
  getUpdatedAt_setCreatedAt : ∀ t e, m.getUpdatedAt (m.setCreatedAt t e) = m.getUpdatedAt e
  erase_setId : ∀ n e, eraseGenerated m (m.setId n e) = eraseGenerated m e
  erase_setCreatedAt : ∀ t e, eraseGenerated m (m.setCreatedAt t e) = eraseGenerated m e
  erase_setUpdatedAt : ∀ t e, eraseGenerated m (m.setUpdatedAt t e) = eraseGenerated m e

/-- A store with a single 12.50 transaction on account 1. -/
def dbOneTx : Db :=
  ⟨⟨[⟨1, "Checking", "CHECKING", 1, 1⟩], 2⟩, ⟨[⟨1, "Food", "EXPENSE", 1, 1⟩], 2⟩,
   ⟨[⟨1, 1, 1, 1250, 20, some "grocery run", 1, 1⟩], 2⟩⟩

/-- A store whose account 1 has two transactions with distinct dates,
stored out of date order. -/
def dbTwoTx : Db :=
  ⟨⟨[⟨1, "Checking", "CHECKING", 1, 1⟩], 2⟩, ⟨[⟨1, "Food", "EXPENSE", 1, 1⟩], 2⟩,
   ⟨[⟨1, 1, 1, 500, 10, none, 1, 1⟩, ⟨2, 1, 1, 700, 30, some "later buy", 1, 1⟩], 3⟩⟩

/-- A store with one account and one category but no transactions. -/
def dbNoTx : Db :=
  ⟨⟨[⟨1, "Checking", "CHECKING", 1, 1⟩], 2⟩, ⟨[⟨1, "Food", "EXPENSE", 1, 1⟩], 2⟩,
   ⟨[], 1⟩⟩

theorem lawfulAccountMeta : LawfulMeta accountMeta := by
  constructor <;> intros <;> rfl

theorem any_congr_mem {α : Type} {l : List α} {p q : α → Bool}
    (h : ∀ a ∈ l, p a = q a) : l.any p = l.any q := by
  induction l with
  | nil => rfl
  | cons x xs ih =>
    simp only [List.any_cons]
    rw [h x (by simp), ih (fun a ha => h a (by simp [ha]))]

theorem nil_mem_suffixes (s : List Char) : [] ∈ suffixes s := by
  induction s with
  | nil => simp [suffixes]
  | cons d t ih => simp [suffixes, ih]

theorem likeMatch_pct_nil (s : List Char) : likeMatch ['%'] s = true := by
  have h : likeMatch ['%'] s = (suffixes s).any (fun t => likeMatch [] t) := by
    rw [likeMatch.eq_def]
    simp
  rw [h, List.any_eq_true]
  exact ⟨[], nil_mem_suffixes s, rfl⟩

theorem likeMatch_lit_append (kw : List Char) (hkw : kw.all literalChar = true) :
    ∀ s, likeMatch (kw ++ ['%']) s = prefixCI kw s := by
  induction kw with
  | nil => intro s; simpa [prefixCI] using likeMatch_pct_nil s
  | cons c p ih =>
    intro s
    simp only [List.all_cons, Bool.and_eq_true] at hkw
    obtain ⟨hc, hp⟩ := hkw
    have hc1 : c ≠ '%' := by intro h; subst h; simp [literalChar] at hc
    have hc2 : c ≠ '_' := by intro h; subst h; simp [literalChar] at hc
    have hc3 : c ≠ '\\' := by intro h; subst h; simp [literalChar] at hc
    cases s with
    | nil =>
      simp only [List.cons_append]
      rw [likeMatch.eq_def]
      simp only [if_neg hc1, if_neg hc3, if_neg hc2]
      rfl
    | cons d t =>
      simp only [List.cons_append]
      rw [likeMatch.eq_def]
      simp only [if_neg hc1, if_neg hc3, if_neg hc2]
      simp only [ih hp t]
      rfl

theorem likeMatch_contains (kw : List Char) (hkw : kw.all literalChar = true)
    (s : List Char) : likeMatch ('%' :: kw ++ ['%']) s = containsCI kw s := by
  have h : likeMatch ('%' :: kw ++ ['%']) s =
      (suffixes s).any (fun t => likeMatch (kw ++ ['%']) t) := by
    rw [likeMatch.eq_def]
    simp
  rw [h, containsCI]
  exact any_congr_mem (fun t _ => likeMatch_lit_append kw hkw t)

theorem sqlSum_foldl (l : List Int) (a : Int) :
    l.foldl (fun acc x => some (acc.getD 0 + x)) (some a) = some (a + l.sum) := by
  induction l generalizing a with
  | nil => simp
  | cons x xs ih =>
    simp only [List.foldl_cons, Option.getD_some, List.sum_cons, ih (a + x)]
    rw [Int.add_assoc]

theorem sqlSum_getD (l : List Int) : (sqlSum l).getD 0 = l.sum := by
  cases l with
  | nil => rfl
  | cons x xs =>
    simp only [sqlSum, List.foldl_cons, Option.getD_none, sqlSum_foldl xs (0 + x)]
    simp [Int.add_assoc]

theorem find?_append_of_all_false {α : Type} (p : α → Bool) (l1 l2 : List α)
    (h : ∀ a ∈ l1, p a = false) : (l1 ++ l2).find? p = l2.find? p := by
  induction l1 with
  | nil => rfl
  | cons a l ih =>
    simp only [List.cons_append, List.find?_cons, h a (by simp)]
    exact ih (fun b hb => h b (by simp [hb]))

theorem autoTimestamps_getId {T : Type} (m : EntityMeta T) (lm : LawfulMeta m)
    (now : Nat) (e : T) : m.getId (autoTimestamps m now e) = m.getId e := by
  simp only [autoTimestamps]
  split_ifs <;>
    simp [lm.getId_setCreatedAt, lm.getId_setUpdatedAt]

theorem autoTimestamps_getCreatedAt_ne {T : Type} (m : EntityMeta T)
    (lm : LawfulMeta m) (now : Nat) (hnow : now ≠ 0) (e : T) :
    m.getCreatedAt (autoTimestamps m now e) ≠ 0 := by
  simp only [autoTimestamps]
  split_ifs with h1 h2 h3 <;>
    simp_all [lm.getCreatedAt_setCreatedAt, lm.getCreatedAt_setUpdatedAt]

theorem autoTimestamps_getUpdatedAt_ne {T : Type} (m : EntityMeta T)
    (lm : LawfulMeta m) (now : Nat) (hnow : now ≠ 0) (e : T) :
    m.getUpdatedAt (autoTimestamps m now e) ≠ 0 := by
  simp only [autoTimestamps]
  split_ifs with h1 h2 h3 <;>
    simp_all [lm.getUpdatedAt_setUpdatedAt]

theorem autoTimestamps_erase {T : Type} (m : EntityMeta T) (lm : LawfulMeta m)
    (now : Nat) (e : T) :
    eraseGenerated m (autoTimestamps m now e) = eraseGenerated m e := by
  simp only [autoTimestamps]
  split_ifs <;>
    simp [lm.erase_setCreatedAt, lm.erase_setUpdatedAt]

/-- C1: for every account id, `SumByAccountID` returns the arithmetic sum
of the `Amount` fields of the account's transactions and
`CountByAccountID` returns their number, as success values; in
particular an account with no transactions gets `0` from both (a success
value — `COALESCE` replaces the NULL of the empty `SUM`), never an
error. -/
theorem sumByAccountID_countByAccountID_correct (r : TransactionRepository)
    (accountID : Nat) :
    r.SumByAccountID accountID =
      Except.ok (((r.db.transactions.rows.filter
        (fun t => t.accountID == accountID)).map (fun t => t.amount)).sum) ∧
    r.CountByAccountID accountID =
      Except.ok (((r.db.transactions.rows.filter
        (fun t => t.accountID == accountID)).length : Int)) ∧
    (r.db.transactions.rows.filter (fun t => t.accountID == accountID) = [] →
      r.SumByAccountID accountID = Except.ok 0 ∧
      r.CountByAccountID accountID = Except.ok 0) := by
  refine ⟨?_, rfl, ?_⟩
  · simp only [TransactionRepository.SumByAccountID, sqlSum_getD]
  · intro h
    constructor
    · simp [TransactionRepository.SumByAccountID, h, sqlSum]
    · simp [TransactionRepository.CountByAccountID, h]

/-- C1 witness: on the concrete store `dbOneTx`, account 2 has no
transactions and both aggregates return the success value 0, while
account 1 sums to 1250 cents over one transaction. -/
theorem sumByAccountID_countByAccountID_witness :
    (NewTransactionRepository dbOneTx).SumByAccountID 2 = Except.ok 0 ∧
    (NewTransactionRepository dbOneTx).CountByAccountID 2 = Except.ok 0 ∧
    (NewTransactionRepository dbOneTx).SumByAccountID 1 = Except.ok 1250 ∧
    (NewTransactionRepository dbOneTx).CountByAccountID 1 = Except.ok 1 := by
  have h2 := sumByAccountID_countByAccountID_correct (NewTransactionRepository dbOneTx) 2
  have h1 := sumByAccountID_countByAccountID_correct (NewTransactionRepository dbOneTx) 1
  have hz := h2.2.2 (by rfl)
  refine ⟨hz.1, hz.2, ?_, ?_⟩
  · rw [h1.1]; rfl
  · rw [h1.2.1]; rfl

/-- C2: the SQL built by `GroupByCategory` qualifies its columns with the
alias `t` in the SELECT list, the JOIN condition and the WHERE clause,
but the FROM clause (the unaliased `Table("transactions")` plus the
single alias `c` introduced by the JOIN fragment) never defines `t`;
PostgreSQL therefore rejects the statement on every execution and the
method can never return the per-category summaries the claim describes. -/
theorem groupByCategory_alias_undefined :
    "t" ∈ sqlQualifiers groupByCategoryWhere ∧
    "t" ∈ sqlQualifiers groupByCategorySelect ∧
    "t" ∈ sqlQualifiers groupByCategoryJoins ∧
    "t" ∉ groupByCategoryFromNames ∧
    ∀ (r : TransactionRepository) (accountID : Nat),
      r.GroupByCategory accountID = Except.error StoreErr.undefinedTable := by
  refine ⟨?_, ?_, ?_, ?_, fun r accountID => rfl⟩ <;> decide

/-- C9: every `QueryOps` facade method returns exactly the value of the
corresponding specialized-repository method on the same input — a direct
pass-through with no added logic. -/
theorem queryOps_passthrough (q : QueryOps) (id cid tid aid : Nat)
    (name keyword ckeyword tkeyword categoryType : String)
    (startDate endDate : Nat) (limit : Int) :
    q.GetAccountByID id = q.accountRepo.FindByID id ∧
    q.GetAccountByName name = q.accountRepo.FindByName name ∧
    q.SearchAccounts keyword = q.accountRepo.FindByNameLike keyword ∧
    q.GetAllAccounts = q.accountRepo.FindAll ∧
    q.GetCategoryByID cid = q.categoryRepo.FindByID cid ∧
    q.GetCategoriesByType categoryType = q.categoryRepo.FindByType categoryType ∧
    q.SearchCategories ckeyword = q.categoryRepo.FindByNameLike ckeyword ∧
    q.GetAllCategories = q.categoryRepo.FindAll ∧
    q.GetTransactionByID tid = q.transactionRepo.FindByID tid ∧
    q.GetTransactionsByAccountID aid = q.transactionRepo.FindByAccountID aid ∧
    q.GetTransactionsByDateRange startDate endDate =
      q.transactionRepo.FindByDateRange startDate endDate ∧
    q.GetTransactionsByAccountAndDateRange aid startDate endDate =
      q.transactionRepo.FindByAccountAndDateRange aid startDate endDate ∧
    q.SearchTransactionsByDescription tkeyword =
      q.transactionRepo.FindByDescriptionLike tkeyword ∧
    q.GetAccountBalance aid = q.transactionRepo.SumByAccountID aid ∧
    q.GetTransactionCount aid = q.transactionRepo.CountByAccountID aid ∧
    q.GetLatestTransactions aid limit =
      q.transactionRepo.FindLatestForAccount aid limit ∧
    q.GetTransactionSummaryByCategory aid =
      q.transactionRepo.GroupByCategory aid ∧
    q.GetAllTransactions = q.transactionRepo.FindAll :=
  ⟨rfl, rfl, rfl, rfl, rfl, rfl, rfl, rfl, rfl, rfl, rfl, rfl, rfl, rfl,
   rfl, rfl, rfl, rfl⟩

/-- C3 counterexample: updating an entity whose id (7) matches no row of
an empty store returns success, not an error — gorm's `Save` falls back
to an insert — refuting "Update(entity) fails with NotFound semantics
(an error is returned)". -/
theorem update_absent_id_returns_ok :
    BaseRepository.Update accountMeta (fun _ _ => true) 9 ⟨[], 1⟩
        ⟨7, "Checking", "CHECKING", 3, 4⟩ =
      Except.ok (⟨7, "Checking", "CHECKING", 3, 9⟩,
        ⟨[⟨7, "Checking", "CHECKING", 3, 9⟩], 1⟩) := rfl

/-- C3 amended: for an entity whose id matches a row, `Update` replaces
all column values of that row (with `UpdatedAt` auto-stamped); for an
entity whose id matches no row it does not fail — the zero-rows-affected
update falls back to inserting the entity as a new row with the same id
and payload, returning success. -/
theorem update_replaces_or_inserts {T : Type} (m : EntityMeta T)
    (lm : LawfulMeta m) (cons : List T → T → Bool) (now : Nat)
    (tbl : Table T) (e : T)
    (hid : m.getId e ≠ 0)
    (hcons : cons tbl.rows (autoTimestamps m now (m.setUpdatedAt now e)) = true) :
    (tbl.rows.any (fun r => m.getId r == m.getId e) = true →
      BaseRepository.Update m cons now tbl e =
        Except.ok (m.setUpdatedAt now e,
          ⟨tbl.rows.map (fun r =>
            if m.getId r == m.getId e then m.setUpdatedAt now e else r),
           tbl.nextId⟩)) ∧
    (tbl.rows.any (fun r => m.getId r == m.getId e) = false →
      ∃ row, BaseRepository.Update m cons now tbl e =
          Except.ok (row, ⟨tbl.rows ++ [row], tbl.nextId⟩) ∧
        m.getId row = m.getId e ∧
        eraseGenerated m row = eraseGenerated m e) := by
  constructor
  · intro h
    simp [BaseRepository.Update, hid, h]
  · intro h
    refine ⟨autoTimestamps m now (m.setUpdatedAt now e), ?_, ?_, ?_⟩
    · have hrow : m.getId (m.setUpdatedAt now e) = m.getId e :=
        lm.getId_setUpdatedAt now e
      simp [BaseRepository.Update, hid, h, BaseRepository.Create, hrow, hcons]
    · rw [autoTimestamps_getId m lm, lm.getId_setUpdatedAt]
    · rw [autoTimestamps_erase m lm, lm.erase_setUpdatedAt]

/-- C3 witness: updating account 7 in a store holding a row with id 7
replaces every column of that row. -/
theorem update_replaces_or_inserts_witness :
    BaseRepository.Update accountMeta (fun _ _ => true) 9
        ⟨[⟨7, "Old", "CHECKING", 3, 4⟩], 8⟩ ⟨7, "New", "SAVINGS", 3, 4⟩ =
      Except.ok (⟨7, "New", "SAVINGS", 3, 9⟩,
        ⟨[⟨7, "New", "SAVINGS", 3, 9⟩], 8⟩) := by
  have h := update_replaces_or_inserts accountMeta lawfulAccountMeta
    (fun _ _ => true) 9 ⟨[⟨7, "Old", "CHECKING", 3, 4⟩], 8⟩
    ⟨7, "New", "SAVINGS", 3, 4⟩ (by decide) (by rfl)
  exact h.1 (by rfl)

/-- C8 counterexample: id 0 matches no row, yet `Delete` of an entity
with id 0 is rejected by gorm's missing-WHERE guard while `DeleteByID 0`
succeeds — refuting "for every id matching no row, both succeed without
error" and the unrestricted equivalence of the two entry points. -/
theorem delete_zero_id_divergence :
    BaseRepository.Delete accountMeta ⟨[], 5⟩ ⟨0, "Orphan", "CHECKING", 1, 1⟩ =
      Except.error StoreErr.missingWhereClause ∧
    BaseRepository.DeleteByID accountMeta ⟨[], 5⟩ 0 = Except.ok ⟨[], 5⟩ :=
  ⟨rfl, rfl⟩

/-- C8 amended: for every entity with a nonzero id — in particular every
stored entity — `Delete(entity)` and `DeleteByID(id)` produce the same
store state and the same result, and when the id matches no row both
succeed leaving the store unchanged (zero rows affected is silently
accepted); only `Delete` of an entity with id 0 diverges, failing with
gorm's `ErrMissingWhereClause`. -/
theorem delete_entry_points_equiv {T : Type} (m : EntityMeta T)
    (tbl : Table T) (e : T) (hid : m.getId e ≠ 0) :
    BaseRepository.Delete m tbl e = BaseRepository.DeleteByID m tbl (m.getId e) ∧
    ((∀ r ∈ tbl.rows, m.getId r ≠ m.getId e) →
      BaseRepository.Delete m tbl e = Except.ok tbl ∧
      BaseRepository.DeleteByID m tbl (m.getId e) = Except.ok tbl) := by
  have heq : BaseRepository.Delete m tbl e =
      BaseRepository.DeleteByID m tbl (m.getId e) := by
    simp [BaseRepository.Delete, BaseRepository.DeleteByID, hid]
  refine ⟨heq, fun h => ?_⟩
  have hfilter : tbl.rows.filter (fun r => !(m.getId r == m.getId e)) = tbl.rows := by
    apply List.filter_eq_self.mpr
    intro a ha
    simpa using h a ha
  constructor
  · rw [heq]
    simp [BaseRepository.DeleteByID, hfilter]
  · simp [BaseRepository.DeleteByID, hfilter]

/-- C8 witness: deleting the absent id 5 from a store holding only id 3,
through either entry point, succeeds and leaves the store unchanged. -/
theorem delete_entry_points_equiv_witness :
    BaseRepository.Delete accountMeta ⟨[⟨3, "Keep", "CHECKING", 1, 1⟩], 4⟩
        ⟨5, "Gone", "SAVINGS", 1, 1⟩ =
      BaseRepository.DeleteByID accountMeta
        ⟨[⟨3, "Keep", "CHECKING", 1, 1⟩], 4⟩ 5 ∧
    BaseRepository.Delete accountMeta ⟨[⟨3, "Keep", "CHECKING", 1, 1⟩], 4⟩
        ⟨5, "Gone", "SAVINGS", 1, 1⟩ =
      Except.ok ⟨[⟨3, "Keep", "CHECKING", 1, 1⟩], 4⟩ ∧
    BaseRepository.DeleteByID accountMeta
        ⟨[⟨3, "Keep", "CHECKING", 1, 1⟩], 4⟩ 5 =
      Except.ok ⟨[⟨3, "Keep", "CHECKING", 1, 1⟩], 4⟩ := by
  have h := delete_entry_points_equiv accountMeta
    ⟨[⟨3, "Keep", "CHECKING", 1, 1⟩], 4⟩ ⟨5, "Gone", "SAVINGS", 1, 1⟩
    (by decide)
  have h2 := h.2 (by decide)
  exact ⟨h.1, h2.1, h2.2⟩

/-- C10: a negative limit drops the LIMIT clause, so
`FindLatestForAccount` returns all of the account's transactions,
ordered by `transaction_date` descending. -/
theorem findLatestForAccount_negative_limit (r : TransactionRepository)
    (accountID : Nat) (limit : Int) (hlim : limit < 0) :
    ∃ l, r.FindLatestForAccount accountID limit = Except.ok l ∧
      l.Perm (r.db.transactions.rows.filter (fun t => t.accountID == accountID)) ∧
      l.Pairwise dateDesc := by
  refine ⟨sortByDateDesc (r.db.transactions.rows.filter
    (fun t => t.accountID == accountID)), ?_, ?_, ?_⟩
  · simp [TransactionRepository.FindLatestForAccount, not_le.mpr hlim]
  · exact List.perm_insertionSort dateDesc _
  · exact List.sorted_insertionSort dateDesc _

/-- C4: creating a valid entity with an unset (zero) id succeeds,
populates the generated id and both timestamps with nonzero values, and
a subsequent `FindByID` on the generated id returns the stored record,
which agrees with the argument on every non-generated field. -/
theorem create_findByID_roundtrip {T : Type} (m : EntityMeta T)
    (lm : LawfulMeta m) (cons : List T → T → Bool) (now : Nat)
    (tbl : Table T) (e : T)
    (hid : m.getId e = 0)
    (hnow : now ≠ 0)
    (hnext : tbl.nextId ≠ 0)
    (hfresh : ∀ r ∈ tbl.rows, m.getId r ≠ tbl.nextId)
    (hcons : cons tbl.rows (autoTimestamps m now (m.setId tbl.nextId e)) = true) :
    ∃ row, BaseRepository.Create m cons now tbl e =
        Except.ok (row, ⟨tbl.rows ++ [row], tbl.nextId + 1⟩) ∧
      m.getId row ≠ 0 ∧
      m.getCreatedAt row ≠ 0 ∧
      m.getUpdatedAt row ≠ 0 ∧
      BaseRepository.FindByID m ⟨tbl.rows ++ [row], tbl.nextId + 1⟩
        (m.getId row) = Except.ok row ∧
      eraseGenerated m row = eraseGenerated m e := by
  have hgid : m.getId (autoTimestamps m now (m.setId tbl.nextId e)) = tbl.nextId := by
    rw [autoTimestamps_getId m lm, lm.getId_setId]
  refine ⟨autoTimestamps m now (m.setId tbl.nextId e), ?_, ?_, ?_, ?_, ?_, ?_⟩
  · simp [BaseRepository.Create, hid, hcons]
  · rw [hgid]; exact hnext
  · exact autoTimestamps_getCreatedAt_ne m lm now hnow _
  · exact autoTimestamps_getUpdatedAt_ne m lm now hnow _
  · unfold BaseRepository.FindByID
    have hlf : (tbl.rows ++ [autoTimestamps m now (m.setId tbl.nextId e)]).find?
        (fun r => m.getId r == m.getId (autoTimestamps m now (m.setId tbl.nextId e))) =
        [autoTimestamps m now (m.setId tbl.nextId e)].find?
        (fun r => m.getId r == m.getId (autoTimestamps m now (m.setId tbl.nextId e))) := by
      apply find?_append_of_all_false
      intro a ha
      rw [hgid, beq_eq_false_iff_ne]
      exact hfresh a ha
    rw [hlf]
    simp [List.find?]
  · rw [autoTimestamps_erase m lm, lm.erase_setId]

/-- C4 witness: creating `Account{Name:"Checking"}` (id and timestamps
unset) in an empty store at time 5 and reading it back by the generated
id. -/
theorem create_findByID_roundtrip_witness :
    ∃ row, BaseRepository.Create accountMeta (fun _ _ => true) 5 ⟨[], 1⟩
        ⟨0, "Checking", "CHECKING", 0, 0⟩ =
        Except.ok (row, ⟨[] ++ [row], 1 + 1⟩) ∧
      accountMeta.getId row ≠ 0 ∧
      accountMeta.getCreatedAt row ≠ 0 ∧
      accountMeta.getUpdatedAt row ≠ 0 ∧
      BaseRepository.FindByID accountMeta ⟨[] ++ [row], 1 + 1⟩
        (accountMeta.getId row) = Except.ok row ∧
      eraseGenerated accountMeta row =
        eraseGenerated accountMeta ⟨0, "Checking", "CHECKING", 0, 0⟩ :=
  create_findByID_roundtrip accountMeta lawfulAccountMeta (fun _ _ => true) 5
    ⟨[], 1⟩ ⟨0, "Checking", "CHECKING", 0, 0⟩ rfl (by decide) (by decide)
    (by simp) rfl

/-- C5 counterexample: with the negative limit −1, `FindLatestForAccount`
returns both transactions of account 1, so the returned list's length is
not at most the limit — refuting the claim's "for every limit k". -/
theorem findLatest_negative_limit_breaks_bound :
    (NewTransactionRepository dbTwoTx).FindLatestForAccount 1 (-1) =
      Except.ok [⟨2, 1, 1, 700, 30, some "later buy", 1, 1⟩,
        ⟨1, 1, 1, 500, 10, none, 1, 1⟩] ∧
    ¬ ((([⟨2, 1, 1, 700, 30, some "later buy", 1, 1⟩,
        ⟨1, 1, 1, 500, 10, none, 1, 1⟩] : List Transaction).length : Int) ≤ -1) := by
  exact ⟨rfl, by decide⟩

/-- C5 amended: for every nonnegative limit k, `FindLatestForAccount`
returns at most k of the account's transactions, ordered by
`transaction_date` descending, and when the account has fewer than k
transactions all of them are returned. -/
theorem findLatestForAccount_nonneg_limit (r : TransactionRepository)
    (accountID : Nat) (limit : Int) (hlim : 0 ≤ limit) :
    ∃ l, r.FindLatestForAccount accountID limit = Except.ok l ∧
      ((l.length : Int) ≤ limit) ∧
      l.Pairwise dateDesc ∧
      (∀ t ∈ l, t.accountID = accountID) ∧
      ((((r.db.transactions.rows.filter
          (fun t => t.accountID == accountID)).length : Int) < limit) →
        l.Perm (r.db.transactions.rows.filter
          (fun t => t.accountID == accountID))) := by
  refine ⟨(sortByDateDesc (r.db.transactions.rows.filter
      (fun t => t.accountID == accountID))).take limit.toNat, ?_, ?_, ?_, ?_, ?_⟩
  · simp [TransactionRepository.FindLatestForAccount, hlim]
  · have h1 : ((sortByDateDesc (r.db.transactions.rows.filter
        (fun t => t.accountID == accountID))).take limit.toNat).length ≤
        limit.toNat := by
      rw [List.length_take]
      exact Nat.min_le_left _ _
    have h2 : (((sortByDateDesc (r.db.transactions.rows.filter
        (fun t => t.accountID == accountID))).take limit.toNat).length : Int) ≤
        (limit.toNat : Int) := Nat.cast_le.mpr h1
    rwa [Int.toNat_of_nonneg hlim] at h2
  · exact (List.sorted_insertionSort dateDesc _).sublist (List.take_sublist _ _)
  · intro t ht
    have ht2 := List.mem_of_mem_take ht
    have ht3 := (List.perm_insertionSort dateDesc _).mem_iff.mp ht2
    simpa using (List.mem_filter.mp ht3).2
  · intro hlt
    have hlen : (r.db.transactions.rows.filter
        (fun t => t.accountID == accountID)).length < limit.toNat := by
      rw [← Int.toNat_of_nonneg hlim] at hlt
      exact_mod_cast hlt
    have hs := (List.perm_insertionSort dateDesc (r.db.transactions.rows.filter
      (fun t => t.accountID == accountID))).length_eq
    have hle : (sortByDateDesc (r.db.transactions.rows.filter
        (fun t => t.accountID == accountID))).length ≤ limit.toNat := by
      unfold sortByDateDesc
      omega
    rw [List.take_of_length_le hle]
    exact List.perm_insertionSort dateDesc _

/-- C5 witness: on `dbTwoTx` with limit 5 the two transactions of
account 1 come back date-descending, within the limit. -/
theorem findLatestForAccount_nonneg_limit_witness :
    ∃ l, (NewTransactionRepository dbTwoTx).FindLatestForAccount 1 5 =
        Except.ok l ∧
      ((l.length : Int) ≤ 5) ∧
      l.Pairwise dateDesc ∧
      (∀ t ∈ l, t.accountID = 1) ∧
      ((((NewTransactionRepository dbTwoTx).db.transactions.rows.filter
          (fun t => t.accountID == 1)).length : Int) < 5 →
        l.Perm ((NewTransactionRepository dbTwoTx).db.transactions.rows.filter
          (fun t => t.accountID == 1))) :=
  findLatestForAccount_nonneg_limit (NewTransactionRepository dbTwoTx) 1 5
    (by decide)

/-- C6: a query matching zero rows is an error exactly for the
single-row lookups: the collection queries (`FindAll`,
`FindByNameLike`, `FindByType`, `FindByAccountID`, `FindByDateRange`,
`FindByDescriptionLike`) return an empty list with a nil error, while
`FindByID` and `FindByName` return `ErrRecordNotFound` (the nil entity
accompanying the Go error is implicit in the error result). -/
theorem zero_rows_collection_vs_lookup (db : Db) (id : Nat)
    (name keyword tkeyword categoryType : String) (accountID : Nat)
    (startDate endDate : Nat) :
    (db.transactions.rows = [] →
      (NewTransactionRepository db).FindAll = Except.ok []) ∧
    (db.accounts.rows.filter (fun a => ilike a.name keyword) = [] →
      (NewAccountRepository db).FindByNameLike keyword = Except.ok []) ∧
    (db.categories.rows.filter (fun c => c.categoryType == categoryType) = [] →
      (NewCategoryRepository db).FindByType categoryType = Except.ok []) ∧
    (db.transactions.rows.filter (fun t => t.accountID == accountID) = [] →
      (NewTransactionRepository db).FindByAccountID accountID = Except.ok []) ∧
    (db.transactions.rows.filter (fun t =>
        startDate ≤ t.transactionDate && t.transactionDate ≤ endDate) = [] →
      (NewTransactionRepository db).FindByDateRange startDate endDate =
        Except.ok []) ∧
    (db.transactions.rows.filter (fun t =>
        match t.description with
        | some d => ilike d tkeyword
        | none => false) = [] →
      (NewTransactionRepository db).FindByDescriptionLike tkeyword =
        Except.ok []) ∧
    (db.accounts.rows.find? (fun a => accountMeta.getId a == id) = none →
      (NewAccountRepository db).FindByID id = Except.error StoreErr.notFound) ∧
    (db.accounts.rows.find? (fun a => a.name == name) = none →
      (NewAccountRepository db).FindByName name = Except.error StoreErr.notFound) := by
  refine ⟨?_, ?_, ?_, ?_, ?_, ?_, ?_, ?_⟩
  · intro h
    simp [TransactionRepository.FindAll, BaseRepository.FindAll,
      NewTransactionRepository, h]
  · intro h
    simp [AccountRepository.FindByNameLike, NewAccountRepository, h]
  · intro h
    simp [CategoryRepository.FindByType, NewCategoryRepository, h]
  · intro h
    simp [TransactionRepository.FindByAccountID, NewTransactionRepository, h]
  · intro h
    simp [TransactionRepository.FindByDateRange, NewTransactionRepository, h]
  · intro h
    simp only [TransactionRepository.FindByDescriptionLike,
      NewTransactionRepository, h]
  · intro h
    simp only [AccountRepository.FindByID, BaseRepository.FindByID,
      NewAccountRepository, h]
  · intro h
    simp only [AccountRepository.FindByName, NewAccountRepository, h]

/-- C6 witness: on `dbNoTx` (one account, one category, no transactions)
every collection query with a non-matching input returns the empty list
as a success, and both single-row lookups report not-found. -/
theorem zero_rows_collection_vs_lookup_witness :
    (NewTransactionRepository dbNoTx).FindAll = Except.ok [] ∧
    (NewAccountRepository dbNoTx).FindByNameLike "zzz" = Except.ok [] ∧
    (NewCategoryRepository dbNoTx).FindByType "NONE" = Except.ok [] ∧
    (NewTransactionRepository dbNoTx).FindByAccountID 42 = Except.ok [] ∧
    (NewTransactionRepository dbNoTx).FindByDateRange 10 20 = Except.ok [] ∧
    (NewTransactionRepository dbNoTx).FindByDescriptionLike "zzz" =
      Except.ok [] ∧
    (NewAccountRepository dbNoTx).FindByID 99 =
      Except.error StoreErr.notFound ∧
    (NewAccountRepository dbNoTx).FindByName "Missing" =
      Except.error StoreErr.notFound := by
  have h := zero_rows_collection_vs_lookup dbNoTx 99 "Missing" "zzz" "zzz"
    "NONE" 42 10 20
  exact ⟨h.1 rfl, h.2.1 (by rfl), h.2.2.1 (by rfl), h.2.2.2.1 rfl,
    h.2.2.2.2.1 rfl, h.2.2.2.2.2.1 rfl, h.2.2.2.2.2.2.1 (by rfl),
    h.2.2.2.2.2.2.2 (by rfl)⟩

/-- C7 counterexample: with the keyword `"%"` (a LIKE wildcard),
`FindByDescriptionLike` returns the transaction whose description is
`"grocery run"` even though that description does not contain `"%"` —
refuting "for every keyword ... exactly those transactions whose
description contains the keyword". -/
theorem findByDescriptionLike_wildcard_cex :
    (NewTransactionRepository dbOneTx).FindByDescriptionLike "%" =
      Except.ok [⟨1, 1, 1, 1250, 20, some "grocery run", 1, 1⟩] ∧
    containsCI "%".data "grocery run".data = false := by
  exact ⟨rfl, by decide⟩

/-- C7 amended: for every keyword free of the LIKE wildcard and escape
characters (`%`, `_`, `\`) — the empty keyword included —
`FindByDescriptionLike` returns exactly those transactions whose
description is non-null and contains the keyword case-insensitively
(transactions with a null description are excluded); a keyword
containing such characters is instead interpreted as part of the ILIKE
pattern. -/
theorem findByDescriptionLike_literal_keyword (r : TransactionRepository)
    (keyword : String) (hkw : keyword.data.all literalChar = true) :
    r.FindByDescriptionLike keyword =
      Except.ok (r.db.transactions.rows.filter (fun t =>
        match t.description with
        | some d => containsCI keyword.data d.data
        | none => false)) := by
  unfold TransactionRepository.FindByDescriptionLike
  congr 1
  apply List.filter_congr
  intro t _
  cases t.description with
  | none => rfl
  | some d =>
    show ilike d keyword = containsCI keyword.data d.data
    unfold ilike
    exact likeMatch_contains keyword.data hkw d.data

/-- C7 witness: the wildcard-free keyword `"ROC"` selects exactly the
transactions whose description contains it case-insensitively
(`"grocery run"` does). -/
theorem findByDescriptionLike_literal_keyword_witness :
    (NewTransactionRepository dbOneTx).FindByDescriptionLike "ROC" =
      Except.ok ((NewTransactionRepository dbOneTx).db.transactions.rows.filter
        (fun t =>
          match t.description with
          | some d => containsCI "ROC".data d.data
          | none => false)) :=
  findByDescriptionLike_literal_keyword (NewTransactionRepository dbOneTx)
    "ROC" (by decide)

/-- C10 witness: on `dbTwoTx`, limit −1 returns both transactions of
account 1, date-descending. -/
theorem findLatestForAccount_negative_limit_witness :
    ∃ l, (NewTransactionRepository dbTwoTx).FindLatestForAccount 1 (-1) =
        Except.ok l ∧
      l.Perm ((NewTransactionRepository dbTwoTx).db.transactions.rows.filter
        (fun t => t.accountID == 1)) ∧
      l.Pairwise dateDesc :=
  findLatestForAccount_negative_limit (NewTransactionRepository dbTwoTx) 1 (-1)
    (by decide)

end SampleMcp
